import Mathlib

/-
Verification development for the dpl repository: a lexer, recursive-descent
parser and tree-walking interpreter for a small dynamically-typed language.

The definitions below are a shallow embedding of the TypeScript source:
  * src/src/Token.ts   (token taxonomy, keywords, Token.matches)
  * src/src/Position.ts (source cursor)
  * src/src/Lexer.ts   (ordered regex matchers, escape decoding)
  * src/src/Parser.ts  (the "set"-keyword recursive-descent parser that is
                        coherent with the token list in src: the later parser
                        snapshot references SEMICOLON/LBRACE/RBRACE token
                        kinds that do not exist in the Tokens list under src)
  * src/src/values.ts  (runtime values, operator tables, call protocol)
  * src/src/SymbolTable.ts, src/src/Context.ts (scope chain, call frames)
  * src/src/Interpreter.ts (visit dispatch)
  * the execute entry point that pre-populates pi/print/prompt

Modelling conventions:
  * JS numbers (IEEE float64) are modelled as rationals.  Every numeric
    computation any theorem below evaluates is exact in float64 and in the
    rationals, so the two agree there.  Float-only phenomena (rounding,
    Infinity on 0 ** negative, NaN on irrational powers) are outside every
    computation performed by the theorems; jsPow returns 0 for non-integer
    exponents, whose true float value is irrational and is evaluated by no
    theorem.
  * Position stamps on tokens are kept (they decide the illegal-character
    diagnostics); position stamps on AST nodes and runtime values are
    dropped: the source uses them only to render diagnostic spans.
  * The context stamp on a runtime value matters only for functions and
    built-ins (it selects the closure parent of the next call frame), so
    only those constructors carry it.
  * Mutable symbol tables and call-frame contexts live in an explicit
    store (St); table and context identifiers are indices into it.
  * JS exceptions from `!` non-null assertions on absent values are
    modelled by the Res.crash result.
  * Non-termination is handled by a fuel parameter; Res.oot means the
    fuel ran out, never that the source errs.
-/

namespace DPL

/-- Token kinds, exactly the `Tokens` list in src (Token module). -/
inductive TokenType where
  | EOF | KEYWORD | IDENTIFIER | ASSIGN | LPAREN | RPAREN | COMMA | ARROW
  | NONE | NUMBER | BOOL | STRING
  | PLUS | MINUS | MUL | DIV | MOD | POW
  | AND | OR | XOR | NOT
  | EQ | NEQ | LT | LE | GT | GE
deriving DecidableEq, Repr

/-- The literal text of a token kind, as interpolated into diagnostics. -/
def opName : TokenType → String
  | .EOF => "EOF" | .KEYWORD => "KEYWORD" | .IDENTIFIER => "IDENTIFIER"
  | .ASSIGN => "ASSIGN" | .LPAREN => "LPAREN" | .RPAREN => "RPAREN"
  | .COMMA => "COMMA" | .ARROW => "ARROW"
  | .NONE => "NONE" | .NUMBER => "NUMBER" | .BOOL => "BOOL" | .STRING => "STRING"
  | .PLUS => "PLUS" | .MINUS => "MINUS" | .MUL => "MUL" | .DIV => "DIV"
  | .MOD => "MOD" | .POW => "POW"
  | .AND => "AND" | .OR => "OR" | .XOR => "XOR" | .NOT => "NOT"
  | .EQ => "EQ" | .NEQ => "NEQ" | .LT => "LT" | .LE => "LE"
  | .GT => "GT" | .GE => "GE"

/-- The `Keywords` list in src, in source order. -/
def keywords : List String :=
  ["set", "if", "do", "else", "for", "to", "step", "while", "fn"]

/-- Position.ts: a cursor {i, line, col}.  The file/input fields only feed
diagnostic rendering and are dropped.  The source initialises the cursor to
i = -1, col = -1 and immediately advances once; the model starts at the
post-advance state ⟨0, 0, 0⟩. -/
structure Pos where
  i : Nat
  line : Nat
  col : Nat
deriving DecidableEq, Repr

/-- Position.advance(currentChar): over a newline the line increments and the
column resets; over anything else the column increments. -/
def Pos.advanceChar (p : Pos) (c : Char) : Pos :=
  if c = '\n' then { i := p.i + 1, line := p.line + 1, col := 0 }
  else { i := p.i + 1, line := p.line, col := p.col + 1 }

/-- Position.advance() with no character (used for the EOF token's
default posEnd): the else branch of the newline test. -/
def Pos.advanceDefault (p : Pos) : Pos :=
  { i := p.i + 1, line := p.line, col := p.col + 1 }

/-- Token.ts: {type, value, posStart, posEnd}. -/
structure Token where
  type : TokenType
  value : String
  posStart : Pos
  posEnd : Pos
deriving DecidableEq, Repr

/-- Token.matches(type, value). -/
def Token.matches (t : Token) (ty : TokenType) (v : String) : Bool :=
  t.type = ty && t.value = v

/-- JS \w (word character) as used by the \b boundary in the lexer's
keyword/literal regexes. -/
def isWordChar (c : Char) : Bool :=
  (c ≥ 'a' && c ≤ 'z') || (c ≥ 'A' && c ≤ 'Z') || (c ≥ '0' && c ≤ '9') || c = '_'

/-- JS \s for the characters this ASCII language can contain. -/
def isJsSpace (c : Char) : Bool :=
  c = ' ' || c = '\t' || c = '\n' || c = '\r' ||
  c = (Char.ofNat 11) || c = (Char.ofNat 12)

/-- A word boundary holds after a keyword-like match when the next character
is absent or not a word character (the last matched character being a word
character). -/
def boundaryAfterWord : List Char → Bool
  | [] => true
  | c :: _ => !isWordChar c

/-- The `escapes` record in Lexer.ts: \b \f \n \r \t; any other escaped
character stands for itself (`escapes[type] ?? type`). -/
def escapeChar (c : Char) : Char :=
  if c = 'b' then (Char.ofNat 8)
  else if c = 'f' then (Char.ofNat 12)
  else if c = 'n' then '\n'
  else if c = 'r' then '\r'
  else if c = 't' then '\t'
  else c

def isHexDigit (c : Char) : Bool :=
  (c ≥ '0' && c ≤ '9') || (c ≥ 'a' && c ≤ 'f') || (c ≥ 'A' && c ≤ 'F')

def hexVal (c : Char) : Nat :=
  if c ≥ '0' && c ≤ '9' then c.toNat - '0'.toNat
  else if c ≥ 'a' && c ≤ 'f' then c.toNat - 'a'.toNat + 10
  else if c ≥ 'A' && c ≤ 'F' then c.toNat - 'A'.toNat + 10
  else 0

/-- The STRING matcher's map function: `.replace(/\\(u[0-9a-fA-F]{4}|[^u])/, f)`.
The regex carries NO global flag, so String.prototype.replace rewrites only
the FIRST match, scanning left to right: a backslash followed by `u` and four
hex digits becomes the code unit, a backslash followed by any non-`u`
character becomes that character's escape; everything after the first match
is left untouched. -/
def decodeFirstEscape : List Char → List Char
  | [] => []
  | '\\' :: 'u' :: h1 :: h2 :: h3 :: h4 :: rest =>
      if isHexDigit h1 && isHexDigit h2 && isHexDigit h3 && isHexDigit h4 then
        Char.ofNat (((hexVal h1 * 16 + hexVal h2) * 16 + hexVal h3) * 16 + hexVal h4) :: rest
      else
        -- the [^u] alternative cannot match `u`; the engine moves on
        '\\' :: decodeFirstEscape ('u' :: h1 :: h2 :: h3 :: h4 :: rest)
  | '\\' :: c :: rest =>
      if c = 'u' then
        -- fewer than four hex digits remain; neither alternative matches here
        '\\' :: decodeFirstEscape (c :: rest)
      else escapeChar c :: rest
  | c :: rest => c :: decodeFirstEscape rest

/-- The lazy string-literal body `(?:\\.|.)*?` up to the closing quote:
at each step a closing `"` ends the match (lazy preference), otherwise a
backslash consumes the next character too, otherwise one character is
consumed; `.` never matches a newline.  Returns (body, chars consumed
including both quotes) or none. -/
def matchStringBody : List Char → Option (List Char × Nat)
  | [] => none
  | '"' :: _ => some ([], 2)
  | '\\' :: c :: rest =>
      if c = '\n' then none
      else match matchStringBody rest with
        | some (body, n) => some ('\\' :: c :: body, n + 2)
        | none => none
  | c :: rest =>
      if c = '\n' then none
      else match matchStringBody rest with
        | some (body, n) => some (c :: body, n + 1)
        | none => none

/-- Outcome of one matcher at the current input suffix: number of characters
consumed, the token kind (none for whitespace/comments) and the token value
(the mapped group for STRING, otherwise the matched text). -/
structure MatchOut where
  len : Nat
  type : Option TokenType
  value : String
deriving Repr

def takeWhileCount (p : Char → Bool) : List Char → (List Char × Nat)
  | [] => ([], 0)
  | c :: rest =>
      if p c then
        let (l, n) := takeWhileCount p rest
        (c :: l, n + 1)
      else ([], 0)

/-- Length of the rest of the line (JS `.` excludes newlines). -/
def restOfLineLen : List Char → Nat
  | [] => 0
  | c :: rest => if c = '\n' then 0 else restOfLineLen rest + 1

/-- Index just past the LAST occurrence of the closing `* /` in the suffix
(the block-comment regex `[\s\S]*` is greedy), or none. -/
def lastBlockCommentClose : List Char → Option Nat
  | [] => none
  | '*' :: '/' :: rest =>
      match lastBlockCommentClose ('/' :: rest) with
      | some n => some (n + 1)
      | none => some 2
  | _ :: rest =>
      match lastBlockCommentClose rest with
      | some n => some (n + 1)
      | none => none

/-- Does the suffix start with the given word followed by a \b boundary? -/
def matchWordKw (w : List Char) (cs : List Char) : Bool :=
  match w, cs with
  | [], rest => boundaryAfterWord rest
  | _ :: _, [] => false
  | k :: ks, c :: rest => k = c && matchWordKw ks rest

/-- Match the keyword alternation `^(?:set|if|do|else|for|to|step|while|fn)\b`,
alternatives tried in list order. -/
def matchKeyword (cs : List Char) : Option (String × Nat) :=
  (keywords.map (fun k => (k, k.toList))).findSome?
    (fun kw => if matchWordKw kw.2 cs then some (kw.1, kw.2.length) else none)

/-- Match a fixed punctuation string at the head of the suffix. -/
def matchLit : List Char → List Char → Bool
  | [], _ => true
  | _ :: _, [] => false
  | l :: ls, c :: cs => l = c && matchLit ls cs

/-- The NUMBER regex `^\d+\.?\d*\b` with the engine's backtracking: the
digit run, the optional dot, then a greedy (backtrackable) second digit run,
and the word boundary must hold at the end of the match.  Boundary at a
position: exactly one of the previous and next characters is a word
character (digits are word characters, the dot is not). -/
def matchNumber (cs : List Char) : Option (String × Nat) :=
  let (d1, n1) := takeWhileCount (fun c => c ≥ '0' && c ≤ '9') cs
  if n1 = 0 then none
  else
    let rest1 := cs.drop n1
    match rest1 with
    | '.' :: rest2 =>
        let (d2, n2) := takeWhileCount (fun c => c ≥ '0' && c ≤ '9') rest2
        -- try \d* = d2, d2-1, ..., 0 digits, then drop the dot
        let tryLens := (List.range (n2 + 1)).reverse
        match tryLens.findSome? (fun k =>
          let after := rest2.drop k
          let lastIsWord := k ≠ 0   -- last char is a digit iff k > 0, else the dot
          if boundaryOk lastIsWord after then
            some (String.mk (d1 ++ '.' :: d2.take k), n1 + 1 + k)
          else none) with
        | some r => some r
        | none =>
            -- backtrack over \.? : match digits only
            if boundaryOk true rest1 then some (String.mk d1, n1) else none
    | _ =>
        if boundaryOk true rest1 then some (String.mk d1, n1) else none
where
  /-- \b between a last matched character (word iff `lastIsWord`) and the
  following suffix. -/
  boundaryOk (lastIsWord : Bool) (after : List Char) : Bool :=
    match after with
    | [] => lastIsWord
    | c :: _ => lastIsWord ≠ isWordChar c

/-- One attempt of the ordered `tokenMap` list at the current suffix.
Entries appear in the exact source order. -/
def tryMatchers (cs : List Char) : Option MatchOut :=
  -- ^\s+
  let (ws, nws) := takeWhileCount isJsSpace cs
  if nws ≠ 0 then some ⟨nws, none, String.mk ws⟩
  -- ^\/\/.*
  else if matchLit ['/', '/'] cs then
    some ⟨2 + restOfLineLen (cs.drop 2), none, ""⟩
  -- ^\/\*[\s\S]*\*\/  (greedy: up to the last close)
  else if matchLit ['/', '*'] cs then
    match lastBlockCommentClose (cs.drop 2) with
    | some n => some ⟨2 + n, none, ""⟩
    | none => tryMatchersPunct cs
  else tryMatchersPunct cs
where
  tryMatchersPunct (cs : List Char) : Option MatchOut :=
    match matchKeyword cs with
    | some (kw, n) => some ⟨n, some .KEYWORD, kw⟩
    | none =>
    if matchLit [':'] cs then some ⟨1, some .ASSIGN, ":"⟩
    else if matchLit ['('] cs then some ⟨1, some .LPAREN, "("⟩
    else if matchLit [')'] cs then some ⟨1, some .RPAREN, ")"⟩
    else if matchLit [','] cs then some ⟨1, some .COMMA, ","⟩
    else if matchLit ['-', '>'] cs then some ⟨2, some .ARROW, "->"⟩
    else if matchWordKw ['n', 'o', 'n', 'e'] cs then some ⟨4, some .NONE, "none"⟩
    else match matchNumber cs with
    | some (v, n) => some ⟨n, some .NUMBER, v⟩
    | none =>
    if matchWordKw ['t', 'r', 'u', 'e'] cs then some ⟨4, some .BOOL, "true"⟩
    else if matchWordKw ['f', 'a', 'l', 's', 'e'] cs then some ⟨5, some .BOOL, "false"⟩
    else match (if matchLit ['"'] cs then matchStringBody (cs.drop 1) else none) with
    | some (body, n) => some ⟨n, some .STRING, String.mk (decodeFirstEscape body)⟩
    | none =>
    if matchLit ['+'] cs then some ⟨1, some .PLUS, "+"⟩
    else if matchLit ['-'] cs then some ⟨1, some .MINUS, "-"⟩
    else if matchLit ['*'] cs then some ⟨1, some .MUL, "*"⟩
    else if matchLit ['/'] cs then some ⟨1, some .DIV, "/"⟩
    else if matchLit ['%'] cs then some ⟨1, some .MOD, "%"⟩
    else if matchLit ['^'] cs then some ⟨1, some .POW, "^"⟩
    else if matchWordKw ['a', 'n', 'd'] cs then some ⟨3, some .AND, "and"⟩
    else if matchWordKw ['o', 'r'] cs then some ⟨2, some .OR, "or"⟩
    else if matchWordKw ['x', 'o', 'r'] cs then some ⟨3, some .XOR, "xor"⟩
    else if matchWordKw ['n', 'o', 't'] cs then some ⟨3, some .NOT, "not"⟩
    else if matchLit ['<', '='] cs then some ⟨2, some .LE, "<="⟩
    else if matchLit ['<'] cs then some ⟨1, some .LT, "<"⟩
    else if matchLit ['>', '='] cs then some ⟨2, some .GE, ">="⟩
    else if matchLit ['>'] cs then some ⟨1, some .GT, ">"⟩
    else if matchLit ['='] cs then some ⟨1, some .EQ, "="⟩
    else if matchLit ['!', '='] cs then some ⟨2, some .NEQ, "!="⟩
    else
      match cs with
      | c :: _ =>
          if isWordChar c && !(c ≥ '0' && c ≤ '9') then
            let (idc, nid) := takeWhileCount isWordChar cs
            some ⟨nid, some .IDENTIFIER, String.mk idc⟩
          else none
      | [] => none

/-- An IllegalCharacterError: the one unmatched character's span and the
`'c'` message. -/
structure LexErr where
  msg : String
  posStart : Pos
  posEnd : Pos
deriving DecidableEq, Repr

/-- getTokens result: the token list (with the EOF sentinel) or the
diagnostic (the source also returns an empty token list alongside it). -/
inductive LexOut where
  | ok (tokens : List Token)
  | error (e : LexErr)
deriving DecidableEq, Repr

/-- Advance the cursor over n consumed characters (Lexer.advance(count)). -/
def advanceOver (p : Pos) : List Char → Pos
  | [] => p
  | c :: rest => advanceOver (p.advanceChar c) rest

/-- The getTokens loop: at each step try the matcher list on the remaining
suffix; a null-kind match produces no token, any other appends a token
stamped with the pre-match and post-match cursor; no match aborts with an
IllegalCharacterError over the one offending character. -/
def getTokensAux : Nat → List Char → Pos → List Token → LexOut
  | 0, _, p, acc =>
      -- unreachable: every successful match consumes at least one character
      .ok (acc.reverse ++ [⟨.EOF, "EOF", p, p.advanceDefault⟩])
  | fuel + 1, cs, p, acc =>
      match cs with
      | [] => .ok (acc.reverse ++ [⟨.EOF, "EOF", p, p.advanceDefault⟩])
      | c :: _ =>
          match tryMatchers cs with
          | none =>
              let p' := p.advanceChar c
              .error ⟨"'" ++ String.mk [c] ++ "'", p, p'⟩
          | some m =>
              let consumed := cs.take m.len
              let p' := advanceOver p consumed
              match m.type with
              | none => getTokensAux fuel (cs.drop m.len) p' acc
              | some ty =>
                  getTokensAux fuel (cs.drop m.len) p'
                    (⟨ty, m.value, p, p'⟩ :: acc)

/-- Lexer.getTokens on a source text. -/
def getTokens (input : String) : LexOut :=
  let cs := input.toList
  getTokensAux (cs.length + 1) cs ⟨0, 0, 0⟩ []

/-! ### AST (nodes module) -/

/-- The Node variants of the nodes module (the snapshot the Interpreter
dispatches over: Value, UnaryOp, BinaryOp, VarAccess, VarAssign, If, For,
While, FnDef, Call).  posStart/posEnd spans are dropped (diagnostic
rendering only). -/
inductive Node where
  | value (token : Token)
  | unaryOp (op : Token) (child : Node)
  | binOp (op : Token) (left right : Node)
  | varAccess (identifier : Token)
  | varAssign (identifier : Token) (val : Node)
  | ifN (condition thenBranch : Node) (elseBranch : Option Node)
  | forN (varName : Token) (start stop : Node) (step : Option Node) (body : Node)
  | whileN (condition body : Node)
  | fnDef (name : Option Token) (params : List Token) (body : Node)
  | call (fn : Node) (args : List Node)

/-! ### Runtime values (values.ts) -/

/-- The JS value sitting in a BaseDPLValue's `value` field, compared by
`===` in handleEquality.  None, Function and BuiltInFunction all store
`null`. -/
inductive JsPrim where
  | pnull
  | pnum (q : ℚ)
  | pbool (b : Bool)
  | pstr (s : String)
deriving DecidableEq, Repr

/-- Runtime values: DPLNone, DPLNumber, DPLBool, DPLString, DPLFunction,
DPLBuiltInFunction.  The ctx field is the value's `context` stamp (a
call-frame id into the store); it is carried only where it is observable,
namely on the two function variants, whose `generateContext` reads it. -/
inductive DPLValue where
  | vnone
  | vnum (q : ℚ)
  | vbool (b : Bool)
  | vstr (s : String)
  | vfn (name : String) (params : List String) (body : Node) (ctx : Option Nat)
  | vbuiltin (name : String) (ctx : Option Nat)

/-- The `value` payload of each variant (null for none and both function
kinds, per the BaseDPLFunction and DPLNone constructors). -/
def payload : DPLValue → JsPrim
  | .vnone => .pnull
  | .vnum q => .pnum q
  | .vbool b => .pbool b
  | .vstr s => .pstr s
  | .vfn _ _ _ _ => .pnull
  | .vbuiltin _ _ => .pnull

/-- The `type` tag of each variant as interpolated into diagnostics. -/
def typeName : DPLValue → String
  | .vnone => "NONE"
  | .vnum _ => "NUMBER"
  | .vbool _ => "BOOL"
  | .vstr _ => "STRING"
  | .vfn _ _ _ _ => "FN"
  | .vbuiltin _ _ => "FN"

/-- setContext: observable only on the function variants (see DPLValue). -/
def setValCtx (v : DPLValue) (c : Option Nat) : DPLValue :=
  match v with
  | .vfn n p b _ => .vfn n p b c
  | .vbuiltin n _ => .vbuiltin n c
  | x => x

/-- Boolean rational comparisons (JS `<` and `<=` on finite numbers);
Rat.blt is the executable strict-order test. -/
def qblt (a b : ℚ) : Bool := Rat.blt a b

def qble (a b : ℚ) : Bool := !(Rat.blt b a)

/-- Truncation toward zero, as JS bitwise coercion and `%` use. -/
def jsTrunc (q : ℚ) : ℤ :=
  if qblt q 0 then -(Int.floor (-q)) else Int.floor q

/-- ToInt32: truncate, then wrap into [-2^31, 2^31). -/
def toInt32 (q : ℚ) : ℤ :=
  let m := (jsTrunc q).emod 4294967296
  if m ≥ 2147483648 then m - 4294967296 else m

/-- Two's-complement 32-bit representative in [0, 2^32). -/
def toUInt32Nat (q : ℚ) : Nat := ((jsTrunc q).emod 4294967296).toNat

/-- Reinterpret a [0, 2^32) pattern as a signed int32. -/
def fromUInt32 (n : Nat) : ℤ :=
  if n ≥ 2147483648 then (n : ℤ) - 4294967296 else (n : ℤ)

/-- JS `a & b` on numbers. -/
def jsBitAnd (a b : ℚ) : ℚ := (fromUInt32 (Nat.land (toUInt32Nat a) (toUInt32Nat b)) : ℚ)

/-- JS `a | b` on numbers. -/
def jsBitOr (a b : ℚ) : ℚ := (fromUInt32 (Nat.lor (toUInt32Nat a) (toUInt32Nat b)) : ℚ)

/-- JS `a ^ b` on numbers. -/
def jsBitXor (a b : ℚ) : ℚ := (fromUInt32 (Nat.xor (toUInt32Nat a) (toUInt32Nat b)) : ℚ)

/-- JS `~a` on numbers: -(ToInt32(a) + 1). -/
def jsBitNot (a : ℚ) : ℚ := (-(toInt32 a + 1) : ℚ)

/-- JS `a % b` (fmod) for b ≠ 0: a - b * trunc(a / b). -/
def jsFmod (a b : ℚ) : ℚ := a - b * (jsTrunc (a / b) : ℚ)

/-- JS `a ** b`.  For an integer exponent this is the exact power (every
evaluation a theorem below performs is of this form and is exact in
float64); a non-integer exponent would produce an irrational or NaN float
with no rational counterpart, and no theorem evaluates one — 0 is returned
there as an arbitrary placeholder. -/
def jsPow (a b : ℚ) : ℚ :=
  if b.den = 1 then a ^ b.num else 0

/-- Decimal rendering of an Int. -/
def intToString (n : ℤ) : String := toString n

/-- Number.prototype.toString for the numbers the development renders:
integers print their decimal digits; a non-integer with a terminating
decimal expansion prints it; other values (which no theorem renders, their
float printing being a shortest-round-trip search) fall back to num/den. -/
def numToString (q : ℚ) : String :=
  if q.den = 1 then intToString q.num
  else
    match (List.range 40).find? (fun k => (q * (10 ^ (k + 1) : ℚ)).den = 1) with
    | some k =>
        let kk := k + 1
        let sign := if qblt q 0 then "-" else ""
        let a : ℚ := |q|
        let ip : ℤ := Int.floor a
        let fr : ℤ := ((a - (ip : ℚ)) * (10 ^ kk : ℚ)).num
        let fs := toString fr.toNat
        let pad := String.mk (List.replicate (kk - fs.length) '0')
        sign ++ toString ip.toNat ++ "." ++ pad ++ fs
    | none => intToString q.num ++ "/" ++ toString q.den

/-- toString of each variant (values.ts toString methods). -/
def dplToString : DPLValue → String
  | .vnone => "none"
  | .vnum q => numToString q
  | .vbool b => if b then "true" else "false"
  | .vstr s => s
  | .vfn n _ _ _ => "<function " ++ n ++ ">"
  | .vbuiltin n _ => "<built-in function " ++ n ++ ">"

/-- A RuntimeError (isUndefinedOp marks the UndefinedOpError subclass).
Positions and the context chain only feed traceback rendering and are
dropped. -/
structure RTErr where
  msg : String
  isUndefinedOp : Bool
deriving DecidableEq, Repr

/-- Build the `Undefined behavior for <t> <op> <t>` UndefinedOpError. -/
def undefBinErr (v : DPLValue) (op : TokenType) (w : DPLValue) : RTErr :=
  let tl := typeName v
  let o := opName op
  let tr := typeName w
  ⟨s!"Undefined behavior for {tl} {o} {tr}", true⟩

/-- handleEquality: for EQ/NEQ, compare the raw payloads with `===`;
for any other operator, fall through (none). -/
def handleEquality (v : DPLValue) (op : TokenType) (other : DPLValue) :
    Option DPLValue :=
  match op with
  | .EQ => some (.vbool (payload v == payload other))
  | .NEQ => some (.vbool (payload v != payload other))
  | _ => none

/-- DPLNumber.binaryNumberOps: the per-operator table consulted after the
equality interception and the `other instanceof DPLNumber` check. -/
def numBinaryOp (a : ℚ) (op : TokenType) (b : ℚ) : Option (Except RTErr DPLValue) :=
  match op with
  | .PLUS => some (.ok (.vnum (a + b)))
  | .MINUS => some (.ok (.vnum (a - b)))
  | .MUL => some (.ok (.vnum (a * b)))
  | .DIV =>
      if b = 0 then some (.error ⟨"Division by 0", false⟩)
      else some (.ok (.vnum (a / b)))
  | .MOD =>
      if b = 0 then some (.error ⟨"Modulus by 0", false⟩)
      else some (.ok (.vnum (jsFmod a b)))
  | .POW =>
      if a = 0 && b = 0 then some (.error ⟨"0 ^ 0 is undefined", false⟩)
      else some (.ok (.vnum (jsPow a b)))
  | .AND => some (.ok (.vnum (jsBitAnd a b)))
  | .OR => some (.ok (.vnum (jsBitOr a b)))
  | .XOR => some (.ok (.vnum (jsBitXor a b)))
  | .LT => some (.ok (.vbool (qblt a b)))
  | .LE => some (.ok (.vbool (qble a b)))
  | .GT => some (.ok (.vbool (qblt b a)))
  | .GE => some (.ok (.vbool (qble b a)))
  | _ => none

/-- JS string comparison (UTF-16 code-unit order; code-point order below,
which agrees outside surrogate corner cases no theorem constructs). -/
def strLt (a b : String) : Bool := decide (a < b)

/-- String.prototype.repeat. -/
def strRepeat (s : String) (n : Nat) : String :=
  String.join (List.replicate n s)

/-- DPLString.times: repeat by a DPLNumber, negative or non-integer counts
are RuntimeErrors. -/
def strTimes (s : String) (q : ℚ) : Except RTErr DPLValue :=
  if qblt q 0 then .error ⟨"Cannot repeat STRING a negative number of times", false⟩
  else if q.den ≠ 1 then .error ⟨"Cannot repeat STRING by a non-integer value", false⟩
  else .ok (.vstr (strRepeat s q.num.toNat))

/-- binaryOp(op, other): the per-class dispatch of values.ts.
  * DPLNone: equality, else UndefinedOpError.
  * DPLNumber: equality; other must be a DPLNumber; then binaryNumberOps.
  * DPLBool: equality; other must be a DPLBool; then AND/OR/XOR.
  * DPLString: equality; PLUS concatenates with the other's toString
    whatever its type; LT/LE/GT/GE against another String; MUL against a
    Number repeats; else UndefinedOpError.
  * BaseDPLFunction (DPLFunction and DPLBuiltInFunction): always
    UndefinedOpError — note it does NOT consult handleEquality.
Result values' position/context re-stamping is dropped (never a function
value). -/
def dplBinaryOp (v : DPLValue) (op : TokenType) (w : DPLValue) :
    Except RTErr DPLValue :=
  match v with
  | .vnone =>
      match handleEquality v op w with
      | some r => .ok r
      | none => .error (undefBinErr v op w)
  | .vnum a =>
      match handleEquality v op w with
      | some r => .ok r
      | none =>
          match w with
          | .vnum b =>
              match numBinaryOp a op b with
              | some r => r
              | none => .error (undefBinErr v op w)
          | _ => .error (undefBinErr v op w)
  | .vbool a =>
      match handleEquality v op w with
      | some r => .ok r
      | none =>
          match w with
          | .vbool b =>
              match op with
              | .AND => .ok (.vbool (a && b))
              | .OR => .ok (.vbool (a || b))
              | .XOR => .ok (.vbool (a != b))
              | _ => .error (undefBinErr v op w)
          | _ => .error (undefBinErr v op w)
  | .vstr a =>
      match handleEquality v op w with
      | some r => .ok r
      | none =>
          if op = .PLUS then .ok (.vstr (a ++ dplToString w))
          else
            match w with
            | .vstr b =>
                match op with
                | .LT => .ok (.vbool (strLt a b))
                | .LE => .ok (.vbool (strLt a b || a = b))
                | .GT => .ok (.vbool (strLt b a))
                | .GE => .ok (.vbool (strLt b a || a = b))
                | _ => .error (undefBinErr v op w)
            | .vnum b =>
                if op = .MUL then strTimes a b
                else .error (undefBinErr v op w)
            | _ => .error (undefBinErr v op w)
  | .vfn _ _ _ _ => .error (undefBinErr v op w)
  | .vbuiltin _ _ => .error (undefBinErr v op w)

/-- unaryOp(op): the per-class unaryOps tables.
  * DPLNone: NOT yields Bool true.
  * DPLNumber: PLUS copies, MINUS negates, NOT is JS `~`.
  * DPLBool: NOT flips.
  * DPLString and functions: empty table.
Missing entries are `Undefined behavior for <op> <t>` UndefinedOpErrors. -/
def dplUnaryOp (v : DPLValue) (op : TokenType) : Except RTErr DPLValue :=
  let undef : Except RTErr DPLValue :=
    let o := opName op
    let tn := typeName v
    .error ⟨s!"Undefined behavior for {o} {tn}", true⟩
  match v with
  | .vnone => if op = .NOT then .ok (.vbool true) else undef
  | .vnum a =>
      match op with
      | .PLUS => .ok (.vnum a)
      | .MINUS => .ok (.vnum (-a))
      | .NOT => .ok (.vnum (jsBitNot a))
      | _ => undef
  | .vbool b => if op = .NOT then .ok (.vbool !b) else undef
  | _ => undef

/-! ### Parser

The recursive-descent parser snapshot that is coherent with the Tokens
list under src (the one whose `expr` starts with the `set` keyword; the
later snapshot references SEMICOLON/LBRACE/RBRACE kinds absent from that
list).  Each method threads the token index; fuel bounds the recursion.
Where the source reads `this.current()` without the optional-chaining
guard, a missing token is a crash. -/

/-- A ParseResult: the node with the index after it, a SyntaxError message
(spans dropped), a crash on an unguarded missing token, or fuel exhaustion. -/
inductive PRes where
  | ok (n : Node) (i : Nat)
  | err (msg : String)
  | crash
  | oot

def curTok (toks : List Token) (i : Nat) : Option Token := toks.get? i

/-- The "Unexpected TYPE: 'value'" SyntaxError text. -/
def unexpectedMsg (t : Token) : String :=
  let ty := opName t.type
  let v := t.value
  s!"Unexpected {ty}: '{v}'"

/-- Parser rule selector for the mutually recursive methods. -/
inductive PRule where
  | expr | compExpr | arithExpr | term | factor | power | atom
  | ifExpr | forExpr | whileExpr
deriving DecidableEq, Repr

mutual

/-- One parse step: `parseRule fuel rule toks i` runs the named Parser
method at token index i.  `parseBinOpLoop` is the while loop of the shared
`binOp` helper (left-folding BinaryOp nodes), with its operand rule and
operator set. -/
def parseRule : Nat → PRule → List Token → Nat → PRes
  | 0, _, _, _ => .oot
  | f + 1, r, toks, i =>
    match r with
    | .expr =>
        match curTok toks i with
        | none => .crash
        | some t =>
            if t.matches .KEYWORD "set" then
              match curTok toks (i + 1) with
              | none => .crash
              | some idt =>
                  if idt.type ≠ .IDENTIFIER then .err "Expected IDENTIFIER"
                  else
                    match curTok toks (i + 2) with
                    | none => .crash
                    | some at' =>
                        if at'.type ≠ .ASSIGN then .err "Expected ':'"
                        else
                          match parseRule f .expr toks (i + 3) with
                          | .ok e j => .ok (.varAssign idt e) j
                          | r => r
            else
              match parseRule f .compExpr toks i with
              | .ok left j => parseBinOpLoop f [.AND, .OR, .XOR] .compExpr toks left j
              | r => r
    | .compExpr =>
        match curTok toks i with
        | none => .crash
        | some t =>
            if t.type = .NOT then
              match parseRule f .compExpr toks (i + 1) with
              | .ok e j => .ok (.unaryOp t e) j
              | r => r
            else
              match parseRule f .arithExpr toks i with
              | .ok left j =>
                  parseBinOpLoop f [.EQ, .NEQ, .LT, .LE, .GT, .GE] .arithExpr toks left j
              | r => r
    | .arithExpr =>
        match parseRule f .term toks i with
        | .ok left j => parseBinOpLoop f [.PLUS, .MINUS] .term toks left j
        | r => r
    | .term =>
        match parseRule f .factor toks i with
        | .ok left j => parseBinOpLoop f [.MUL, .DIV, .MOD] .factor toks left j
        | r => r
    | .factor =>
        match curTok toks i with
        | none => .crash
        | some t =>
            if t.type = .PLUS ∨ t.type = .MINUS then
              match parseRule f .power toks (i + 1) with
              | .ok e j => .ok (.unaryOp t e) j
              | r => r
            else parseRule f .power toks i
    | .power =>
        match parseRule f .atom toks i with
        | .ok left j => parseBinOpLoop f [.POW] .factor toks left j
        | r => r
    | .atom =>
        match curTok toks i with
        | none => .crash
        | some t =>
            if t.type = .NONE ∨ t.type = .NUMBER ∨ t.type = .BOOL ∨ t.type = .STRING then
              .ok (.value t) (i + 1)
            else if t.type = .IDENTIFIER then
              .ok (.varAccess t) (i + 1)
            else if t.type = .LPAREN then
              match parseRule f .expr toks (i + 1) with
              | .ok e j =>
                  match curTok toks j with
                  | some t' =>
                      if t'.type = .RPAREN then .ok e (j + 1)
                      else .err "Expected ')'"
                  | none => .crash
              | r => r
            else if t.matches .KEYWORD "if" then parseRule f .ifExpr toks i
            else if t.matches .KEYWORD "for" then parseRule f .forExpr toks i
            else if t.matches .KEYWORD "while" then parseRule f .whileExpr toks i
            else .err (unexpectedMsg t)
    | .ifExpr =>
        match curTok toks i with
        | none => .crash
        | some t =>
            if ¬ t.matches .KEYWORD "if" then .err "Expected 'if'"
            else
              match parseRule f .expr toks (i + 1) with
              | .ok cond j =>
                  match curTok toks j with
                  | none => .crash
                  | some dt =>
                      if ¬ dt.matches .KEYWORD "do" then .err "Expected 'do'"
                      else
                        match parseRule f .expr toks (j + 1) with
                        | .ok thenB k =>
                            match curTok toks k with
                            | none => .crash
                            | some et =>
                                if ¬ et.matches .KEYWORD "else" then
                                  .ok (.ifN cond thenB none) k
                                else
                                  match parseRule f .expr toks (k + 1) with
                                  | .ok elseB m => .ok (.ifN cond thenB (some elseB)) m
                                  | r => r
                        | r => r
              | r => r
    | .forExpr =>
        match curTok toks i with
        | none => .crash
        | some t =>
            if ¬ t.matches .KEYWORD "for" then .err "Expected 'for'"
            else
              match curTok toks (i + 1) with
              | none => .crash
              | some vt =>
                  if vt.type ≠ .IDENTIFIER then .err "Expected IDENTIFIER"
                  else
                    match curTok toks (i + 2) with
                    | none => .crash
                    | some at' =>
                        if at'.type ≠ .ASSIGN then .err "Expected ':'"
                        else
                          match parseRule f .expr toks (i + 3) with
                          | .ok startE j =>
                              match curTok toks j with
                              | none => .crash
                              | some tt =>
                                  if ¬ tt.matches .KEYWORD "to" then .err "Expected 'to'"
                                  else
                                    match parseRule f .expr toks (j + 1) with
                                    | .ok endE k => parseForTail f toks vt startE endE k
                                    | r => r
                          | r => r
    | .whileExpr =>
        match curTok toks i with
        | none => .crash
        | some t =>
            if ¬ t.matches .KEYWORD "while" then .err "Expected 'while'"
            else
              match parseRule f .expr toks (i + 1) with
              | .ok cond j =>
                  match curTok toks j with
                  | none => .crash
                  | some dt =>
                      if ¬ dt.matches .KEYWORD "do" then .err "Expected 'do'"
                      else
                        match parseRule f .expr toks (j + 1) with
                        | .ok body k => .ok (.whileN cond body) k
                        | r => r
              | r => r

/-- The optional `step` clause, the `do` keyword and the body of forExpr. -/
def parseForTail (f : Nat) (toks : List Token) (vt : Token)
    (startE endE : Node) (k : Nat) : PRes :=
  match f with
  | 0 => .oot
  | f + 1 =>
      match curTok toks k with
      | none => .crash
      | some st =>
          if st.matches .KEYWORD "step" then
            match parseRule f .expr toks (k + 1) with
            | .ok stepE m => parseForBody f toks vt startE endE (some stepE) m
            | r => r
          else parseForBody f toks vt startE endE none k

/-- The `do` keyword and body shared by both forExpr step branches. -/
def parseForBody (f : Nat) (toks : List Token) (vt : Token)
    (startE endE : Node) (stepE : Option Node) (m : Nat) : PRes :=
  match f with
  | 0 => .oot
  | f + 1 =>
      match curTok toks m with
      | none => .crash
      | some dt =>
          if ¬ dt.matches .KEYWORD "do" then .err "Expected 'do'"
          else
            match parseRule f .expr toks (m + 1) with
            | .ok body n => .ok (.forN vt startE endE stepE body) n
            | r => r

/-- The while loop of the shared binOp helper: while the current token's
kind is in `ops`, consume it, parse the right operand with `sub`, and fold
a left-associated BinaryOp node. -/
def parseBinOpLoop (f : Nat) (ops : List TokenType)
    (sub : PRule) (toks : List Token) (left : Node) (i : Nat) : PRes :=
  match f with
  | 0 => .oot
  | f + 1 =>
      match curTok toks i with
      | none => .ok left i   -- `this.current()?.type` is undefined: not in ops
      | some t =>
          if ops.contains t.type then
            match parseRule f sub toks (i + 1) with
            | .ok right j => parseBinOpLoop f ops sub toks (.binOp t left right) j
            | r => r
          else .ok left i

end

/-- Parser.parse(): parse an `expr` from index 0, then require the cursor
to sit on EOF. -/
def parse (toks : List Token) : PRes :=
  match parseRule (toks.length * 4 + 100) .expr toks 0 with
  | .ok n i =>
      match curTok toks i with
      | none => .crash
      | some t => if t.type ≠ .EOF then .err (unexpectedMsg t) else .ok n i
  | r => r

/-! ### Symbol tables, contexts and the store -/

/-- SymbolTable.ts: insertion-ordered bindings plus an optional parent
table (a store index). -/
structure TabData where
  syms : List (String × DPLValue)
  parent : Option Nat

/-- Context.ts: one call frame — its name, the calling frame (for
tracebacks) and its symbol table (a store index).  parentEntryPos feeds
only traceback rendering and is dropped. -/
structure CtxData where
  name : String
  parent : Option Nat
  table : Nat

/-- The mutable world: all tables and contexts ever created (addressed by
index; JS object identity), plus the host I/O sinks — outLines the lines
written by console.log / the prompt text, inLines the lines the input sink
will deliver. -/
structure St where
  ctxs : List CtxData
  tabs : List TabData
  outLines : List String
  inLines : List String

/-- Map.get on one table's own bindings. -/
def symsFind (name : String) : List (String × DPLValue) → Option DPLValue
  | [] => none
  | (k, v) :: rest => if k = name then some v else symsFind name rest

/-- Map.set: replace an existing binding in place, else append. -/
def symsSet (name : String) (v : DPLValue) :
    List (String × DPLValue) → List (String × DPLValue)
  | [] => [(name, v)]
  | (k, w) :: rest =>
      if k = name then (k, v) :: rest else (k, w) :: symsSet name v rest

/-- SymbolTable.get with the parent-chain walk, bounded by the store size
(parent indices always point to earlier tables, so this bound suffices). -/
def tableGetAux (s : St) : Nat → Nat → String → Option DPLValue
  | 0, _, _ => none
  | f + 1, tid, name =>
      match s.tabs.get? tid with
      | none => none
      | some td =>
          match symsFind name td.syms with
          | some v => some v
          | none =>
              match td.parent with
              | none => none
              | some p => tableGetAux s f p name

def tableGet (s : St) (tid : Nat) (name : String) : Option DPLValue :=
  tableGetAux s (s.tabs.length + 1) tid name

/-- SymbolTable.set on the table at `tid` (always the local table). -/
def tableSet (s : St) (tid : Nat) (name : String) (v : DPLValue) : St :=
  { s with
    tabs := s.tabs.enum.map
      (fun p => if p.1 = tid then { p.2 with syms := symsSet name v p.2.syms } else p.2) }

/-- The table of the context at `cid`. -/
def ctxTable (s : St) (cid : Nat) : Option Nat :=
  (s.ctxs.get? cid).map (fun cd => cd.table)

/-! ### The interpreter -/

/-- One evaluation outcome: a value, a RuntimeError, a JS TypeError from a
`!` assertion on an absent value (crash), or fuel exhaustion (oot). -/
inductive Res where
  | ok (v : DPLValue) (s : St)
  | err (e : RTErr) (s : St)
  | crash (s : St)
  | oot

/-- parseFloat on the digit strings the NUMBER matcher produces
(digits, optionally a dot and more digits). -/
def parseNum (str : String) : ℚ :=
  let cs := str.toList
  let intPart := cs.takeWhile (fun c => c ≠ '.')
  let fracPart := (cs.dropWhile (fun c => c ≠ '.')).drop 1
  let ip : ℚ := (intPart.foldl (fun a c => a * 10 + (c.toNat - '0'.toNat)) 0 : ℕ)
  let fp : ℚ := (fracPart.foldl (fun a c => a * 10 + (c.toNat - '0'.toNat)) 0 : ℕ)
  ip + fp / (10 ^ fracPart.length : ℚ)

/-- BaseDPLFunction.generateContext: a fresh Context whose parent is the
value's context stamp and whose symbol table's parent is THAT context's
table (`context.parent!.symbolTable`) — a null stamp crashes on the `!`.
Returns the new context id and the grown store. -/
def generateContext (vname : String) (stamp : Option Nat) (s : St) :
    Option (Nat × St) :=
  match stamp with
  | none => none
  | some c =>
      match s.ctxs.get? c with
      | none => none
      | some cd =>
          let ntid := s.tabs.length
          let ncid := s.ctxs.length
          some (ncid,
            { s with
              tabs := s.tabs ++ [⟨[], some cd.table⟩],
              ctxs := s.ctxs ++ [⟨vname, some c, ntid⟩] })

/-- BaseDPLFunction.populateArgs: bind each argument by position under its
parameter name in the new frame's table, re-stamping it with the new
context. -/
def populateArgs (names : List String) (args : List DPLValue) (cid tid : Nat)
    (s : St) : St :=
  match names, args with
  | n :: ns, a :: as' =>
      populateArgs ns as' cid tid (tableSet s tid n (setValCtx a (some cid)))
  | _, _ => s

/-- DPLBuiltInFunction.callPrint: handleArgs' error is DISCARDED (arguments
are populated only when the count matches); then the `!`-asserted lookup of
"value" (a miss is a crash), console.log of its toString, and the looked-up
value is returned. -/
def callPrintM (args : List DPLValue) (cid : Nat) (s : St) : Res :=
  match ctxTable s cid with
  | none => .crash s
  | some tid =>
      let s1 := if args.length = 1 then populateArgs ["value"] args cid tid s else s
      match tableGet s1 tid "value" with
      | none => .crash s1
      | some v => .ok v { s1 with outLines := s1.outLines ++ [dplToString v] }

/-- DPLBuiltInFunction.callPrompt (dead code in the source: the dispatch
for "prompt" calls callPrint instead): handleArgs' error is discarded, the
`!`-asserted "value" lookup's toString is rendered as the prompt, one line
is read from the input sink and returned as a DPLString.  An empty input
sink would block forever; that is modelled as a crash (no theorem relies
on that corner). -/
def callPromptM (args : List DPLValue) (cid : Nat) (s : St) : Res :=
  match ctxTable s cid with
  | none => .crash s
  | some tid =>
      let s1 := if args.length = 1 then populateArgs ["value"] args cid tid s else s
      match tableGet s1 tid "value" with
      | none => .crash s1
      | some v =>
          let out1 := s1.outLines ++ [dplToString v]
          match s1.inLines with
          | [] => .crash { s1 with outLines := out1 }
          | a :: rest => .ok (.vstr a) { s1 with outLines := out1, inLines := rest }

/-- The `step > 0 ? i <= end : i >= end` loop condition of visitForNode. -/
def forGuard (step i stop : ℚ) : Bool :=
  if qblt 0 step then qble i stop else qble stop i

/-- The pending work items of the mutually recursive evaluation methods:
Interpreter.visit, the visitForNode while loop, the visitWhileNode loop,
the visitCallNode argument loop (carrying the evaluated callee and the
arguments so far), and value.call. -/
inductive Step where
  | visitS (n : Node) (c : Nat)
  | forS (varName : String) (i stop step : ℚ) (body : Node) (c : Nat)
  | whileS (cond body : Node) (c : Nat)
  | forChecksS (varName : String) (sv ev : DPLValue) (pv : Option DPLValue)
      (body : Node) (c : Nat)
  | argsS (rest : List Node) (acc : List DPLValue) (fv : DPLValue) (c : Nat)
  | callS (fv : DPLValue) (args : List DPLValue)

/-- The interpreter.  `run (fuel+1) (.visitS n c) s` is Interpreter.visit
on node n in context c; the other Step variants are its loops, argument
evaluation and the call protocol of values.ts.  Fuel only bounds depth and
iteration count (Res.oot); every other outcome is the source's. -/
def run : Nat → Step → St → Res
  | 0, _, _ => .oot
  | f + 1, step, s =>
    match step with
    | .visitS n c =>
      match n with
      | .value tok =>
          match tok.type with
          | .NONE => .ok .vnone s
          | .NUMBER => .ok (.vnum (parseNum tok.value)) s
          | .BOOL => .ok (.vbool (tok.value = "true")) s
          | .STRING => .ok (.vstr tok.value) s
          | other =>
              let o := opName other
              .err ⟨s!"Unknown token type {o}", false⟩ s
      | .unaryOp op child =>
          match run f (.visitS child c) s with
          | .ok v s' =>
              match dplUnaryOp v op.type with
              | .ok r => .ok r s'
              | .error e => .err e s'
          | r => r
      | .binOp op l r =>
          match run f (.visitS l c) s with
          | .ok lv s' =>
              match run f (.visitS r c) s' with
              | .ok rv s'' =>
                  match dplBinaryOp lv op.type rv with
                  | .ok res => .ok res s''
                  | .error e => .err e s''
              | rr => rr
          | rr => rr
      | .varAccess ident =>
          match ctxTable s c with
          | none => .crash s
          | some tid =>
              match tableGet s tid ident.value with
              | none =>
                  let nm := ident.value
                  .err ⟨s!"Undefined variable '{nm}'", false⟩ s
              | some v => .ok (setValCtx v (some c)) s
      | .varAssign ident valN =>
          match run f (.visitS valN c) s with
          | .ok v s' =>
              match ctxTable s' c with
              | none => .crash s'
              | some tid => .ok v (tableSet s' tid ident.value v)
          | r => r
      | .ifN cond thenB elseB =>
          match run f (.visitS cond c) s with
          | .ok cv s' =>
              match cv with
              | .vbool b =>
                  if b then run f (.visitS thenB c) s'
                  else
                    match elseB with
                    | some e => run f (.visitS e c) s'
                    | none => .ok .vnone s'
              | other =>
                  let tn := typeName other
                  .err ⟨s!"Condition should be type BOOL, got {tn}", false⟩ s'
          | r => r
      | .forN varName startN stopN stepN body =>
          match run f (.visitS startN c) s with
          | .ok sv s1 =>
              match run f (.visitS stopN c) s1 with
              | .ok ev s2 =>
                  -- the step result is NOT error-checked in the source;
                  -- an error there leaves stepValue undefined
                  match stepN with
                  | some stepNode =>
                      match run f (.visitS stepNode c) s2 with
                      | .ok pv s3 => run f (.forChecksS varName.value sv ev (some pv) body c) s3
                      | .err _ s3 => run f (.forChecksS varName.value sv ev none body c) s3
                      | r => r
                  | none => run f (.forChecksS varName.value sv ev (some (.vnum 1)) body c) s2
              | r => r
          | r => r
      | .whileN cond body => run f (.whileS cond body c) s
      | .fnDef nameTok params body =>
          let fv : DPLValue :=
            .vfn (match nameTok with | some t => t.value | none => "<anonymous>")
              (params.map (fun t => t.value)) body (some c)
          match nameTok with
          | some t =>
              match ctxTable s c with
              | none => .crash s
              | some tid => .ok fv (tableSet s tid t.value fv)
          | none => .ok fv s
      | .call fnN argNs =>
          match run f (.visitS fnN c) s with
          | .ok fv s' => run f (.argsS argNs [] fv c) s'
          | r => r
    | .forChecksS varName sv ev pv body c =>
        -- the three NUMBER type checks of visitForNode; a `none` step marks
        -- the unchecked undefined stepValue after a step-expression error,
        -- whose `.type` read the source then crashes on
        (match sv with
        | .vnum i =>
            match ev with
            | .vnum stop =>
                match pv with
                | none => .crash s
                | some (.vnum stp) => run f (.forS varName i stop stp body c) s
                | some other =>
                    let tn := typeName other
                    .err ⟨s!"Step value should be type NUMBER, got {tn}", false⟩ s
            | other =>
                let tn := typeName other
                .err ⟨s!"End value should be type NUMBER, got {tn}", false⟩ s
        | other =>
            let tn := typeName other
            .err ⟨s!"Start value should be type NUMBER, got {tn}", false⟩ s)
    | .forS varName i stop stp body c =>
        if forGuard stp i stop then
          match ctxTable s c with
          | none => .crash s
          | some tid =>
              let s1 := tableSet s tid varName (.vnum i)
              match run f (.visitS body c) s1 with
              | .ok _ s2 => run f (.forS varName (i + stp) stop stp body c) s2
              | r => r
        else .ok .vnone s
    | .whileS cond body c =>
        match run f (.visitS cond c) s with
        | .ok cv s' =>
            match cv with
            | .vbool b =>
                if b then
                  match run f (.visitS body c) s' with
                  | .ok _ s'' => run f (.whileS cond body c) s''
                  | r => r
                else .ok .vnone s'
            | other =>
                let tn := typeName other
                .err ⟨s!"Condition should be type BOOL, got {tn}", false⟩ s'
        | r => r
    | .argsS restNs acc fv c =>
        match restNs with
        | [] => run f (.callS fv acc.reverse) s
        | a :: rest =>
            match run f (.visitS a c) s with
            | .ok v s' => run f (.argsS rest (v :: acc) fv c) s'
            | r => r
    | .callS fv args =>
        match fv with
        | .vfn name params body stamp =>
            match generateContext name stamp s with
            | none => .crash s
            | some (ncid, s1) =>
                if args.length ≠ params.length then
                  let np := params.length
                  let na := args.length
                  .err ⟨s!"Expected {np} arguments but got {na}", false⟩ s1
                else
                  match ctxTable s1 ncid with
                  | none => .crash s1
                  | some ntid =>
                      run f (.visitS body ncid) (populateArgs params args ncid ntid s1)
        | .vbuiltin name stamp =>
            match generateContext name stamp s with
            | none => .crash s
            | some (ncid, s1) =>
                if name = "print" then callPrintM args ncid s1
                else if name = "prompt" then
                  -- the source's dispatch for "prompt" calls callPrint
                  callPrintM args ncid s1
                else .err ⟨s!"Undefined BuiltInFunction: {name}", false⟩ s1
        | other =>
            let tn := typeName other
            .err ⟨s!"{tn} is not callable", false⟩ s

/-- Interpreter.visit(node, context). -/
def visit (fuel : Nat) (n : Node) (c : Nat) (s : St) : Res :=
  run fuel (.visitS n c) s

/-- The value of a successful evaluation. -/
def Res.valOf : Res → Option DPLValue
  | .ok v _ => some v
  | _ => none

/-- The store after an evaluation that produced one. -/
def Res.stOf : Res → Option St
  | .ok _ s => some s
  | .err _ s => some s
  | .crash s => some s
  | .oot => none

/-! ### The execute entry point -/

/-- Math.PI, the float64 closest to π (884279719003555 / 2^48), bound to
`pi` in the global table. -/
def piFloat : ℚ := 884279719003555 / 281474976710656

/-- The pre-populated global symbol table: pi, print, prompt (the built-in
values are constructed with a null context stamp). -/
def globalSyms : List (String × DPLValue) :=
  [("pi", .vnum piFloat), ("print", .vbuiltin "print" none),
   ("prompt", .vbuiltin "prompt" none)]

/-- The initial store: the `<program>` context over the global table,
empty sinks. -/
def stdInit : St :=
  { ctxs := [⟨"<program>", none, 0⟩],
    tabs := [⟨globalSyms, none⟩],
    outLines := [],
    inLines := [] }

/-- The outcome of execute(file, input). -/
inductive ExecOut where
  | val (v : DPLValue) (s : St)
  | lexErr (e : LexErr)
  | parseErr (msg : String)
  | rtErr (e : RTErr) (s : St)
  | crash
  | oot

/-- execute(file, input): lex — a lex error returns immediately — then
parse — a parse error returns immediately — then interpret the AST in a
`<program>` context over the global symbol table. -/
def executeModel (fuel : Nat) (input : String) : ExecOut :=
  match getTokens input with
  | .error e => .lexErr e
  | .ok toks =>
      match parse toks with
      | .err m => .parseErr m
      | .crash => .crash
      | .oot => .oot
      | .ok ast _ =>
          match visit fuel ast 0 stdInit with
          | .ok v s => .val v s
          | .err e s => .rtErr e s
          | .crash _ => .crash
          | .oot => .oot

/-- The value of an execute outcome, when it produced one. -/
def execValue : ExecOut → Option DPLValue
  | .val v _ => some v
  | _ => none

/-- Whether an evaluation ended in the modelled JS TypeError. -/
def Res.isCrash : Res → Bool
  | .crash _ => true
  | _ => false

/-! ### Concrete fixtures used by the theorems -/

def posZero : Pos := ⟨0, 0, 0⟩

/-- A NUMBER literal node (token spans are irrelevant to evaluation). -/
def mkNum (v : String) : Node := .value ⟨.NUMBER, v, posZero, posZero⟩

/-- A BOOL literal node. -/
def mkBool (v : String) : Node := .value ⟨.BOOL, v, posZero, posZero⟩

def tkIdent (n : String) : Token := ⟨.IDENTIFIER, n, posZero, posZero⟩
def tkPlus : Token := ⟨.PLUS, "+", posZero, posZero⟩
def tkMinus : Token := ⟨.MINUS, "-", posZero, posZero⟩
def tkAnd : Token := ⟨.AND, "and", posZero, posZero⟩
def tkDiv : Token := ⟨.DIV, "/", posZero, posZero⟩

/-- `1 / 0` as an AST. -/
def divZeroNode : Node := .binOp tkDiv (mkNum "1") (mkNum "0")

/-- `set n : n + 1`: the counting loop body used to observe how many times
a for-loop body runs. -/
def countingBody : Node :=
  .varAssign (tkIdent "n") (.binOp tkPlus (.varAccess (tkIdent "n")) (mkNum "1"))

/-- `-1` as the parser builds it (unary MINUS over the literal 1). -/
def negOneNode : Node := .unaryOp tkMinus (mkNum "1")

/-- The initial store with a counter `n` bound to 0 in the global table. -/
def stWithN : St := tableSet stdInit 0 "n" (.vnum 0)

/-- `for i : 0 to 5 do set n : n + 1` (implicit step 1). -/
def forUp : Node := .forN (tkIdent "i") (mkNum "0") (mkNum "5") none countingBody

/-- `for i : 5 to 0 step -1 do set n : n + 1`. -/
def forDown : Node :=
  .forN (tkIdent "i") (mkNum "5") (mkNum "0") (some negOneNode) countingBody

/-- `for i : 0 to 5 step -1 do set n : n + 1` (direction mismatch). -/
def forMismatch : Node :=
  .forN (tkIdent "i") (mkNum "0") (mkNum "5") (some negOneNode) countingBody

/-- `(set x : 1) + (set x : x + 1)`: a binary op whose operands both write
`x`, the right one reading it — evaluating to 3 with x = 2 is only possible
when the left operand runs first. -/
def seqWriteNode : Node :=
  .binOp tkPlus (.varAssign (tkIdent "x") (mkNum "1"))
    (.varAssign (tkIdent "x") (.binOp tkPlus (.varAccess (tkIdent "x")) (mkNum "1")))

/-- `false and (1 / 0)`: under short-circuiting the right operand would
never run and no error could arise. -/
def andDivZeroNode : Node := .binOp tkAnd (mkBool "false") divZeroNode

/-- `prompt("Enter: ")` as an AST. -/
def promptCallNode : Node :=
  .call (.varAccess (tkIdent "prompt")) [.value ⟨.STRING, "Enter: ", posZero, posZero⟩]

/-- The initial store with one pending line "hello" on the input sink. -/
def sPromptInit : St := { stdInit with inLines := ["hello"] }

/-- The store exactly as BaseDPLFunction.generateContext leaves it when the
prompt built-in (stamped with the program context) is called on
sPromptInit: a fresh `prompt` frame over a fresh table whose parent is the
global table. -/
def sPromptGen : St :=
  { ctxs := [⟨"<program>", none, 0⟩, ⟨"prompt", some 0, 1⟩],
    tabs := [⟨globalSyms, none⟩, ⟨[], some 0⟩],
    outLines := [],
    inLines := ["hello"] }

/-- The source text of the end-to-end claim about semicolon statements. -/
def c3src : String := "set x : 10; set y : 20; x + y"

/-- The 6-character source `"\n\n"`: quote, backslash, n, backslash, n,
quote — a string literal with two escape sequences. -/
def c2src : String := "\"\\n\\n\""

/-- Is the value a DPLFunction or DPLBuiltInFunction (whose binaryOp
does not consult handleEquality)? -/
def isFunctionValue : DPLValue → Bool
  | .vfn _ _ _ _ => true
  | .vbuiltin _ _ => true
  | _ => false

/-! ### The claims -/

/-- C6: for all Numbers a and b with b = 0, `a / b` and `a % b` fail with a
RuntimeError ("Division by 0" / "Modulus by 0", not UndefinedOp); division
and modulus never produce Infinity or NaN — the zero check intercepts the
only inputs on which the host arithmetic would. -/
theorem c6_div_mod_by_zero_error (a b : ℚ) (h : b = 0) :
    dplBinaryOp (.vnum a) .DIV (.vnum b) = .error ⟨"Division by 0", false⟩ ∧
    dplBinaryOp (.vnum a) .MOD (.vnum b) = .error ⟨"Modulus by 0", false⟩ := by
  subst h
  exact ⟨rfl, rfl⟩

/-- Witness for C6 at a = 1, b = 0. -/
theorem c6_div_mod_by_zero_error_witness :
    dplBinaryOp (.vnum 1) .DIV (.vnum 0) = .error ⟨"Division by 0", false⟩ ∧
    dplBinaryOp (.vnum 1) .MOD (.vnum 0) = .error ⟨"Modulus by 0", false⟩ :=
  c6_div_mod_by_zero_error 1 0 rfl

/-- C7: `0 ^ 0` fails with the RuntimeError "0 ^ 0 is undefined", while
`2 ^ 10` evaluates to the Number 1024. -/
theorem c7_pow_zero_zero_and_1024 :
    dplBinaryOp (.vnum 0) .POW (.vnum 0) = .error ⟨"0 ^ 0 is undefined", false⟩ ∧
    dplBinaryOp (.vnum 2) .POW (.vnum 10) = .ok (.vnum 1024) := by
  refine ⟨rfl, ?_⟩
  have hp : jsPow 2 10 = 1024 := by norm_num [jsPow]
  simp [dplBinaryOp, handleEquality, numBinaryOp, hp]

/-- C5 counterexample: the claim "for every pair of runtime values of any
variants, EQ succeeds with a Bool" fails when the left operand is a
function value: BaseDPLFunction.binaryOp never consults handleEquality, so
`print = none` is an UndefinedOpError, not a Bool. -/
theorem c5_fn_equality_undefined_op :
    dplBinaryOp (.vbuiltin "print" none) .EQ .vnone =
      .error ⟨"Undefined behavior for FN EQ NONE", true⟩ :=
  rfl

/-- C5 amended: for every pair whose LEFT operand is not a function value,
EQ and NEQ succeed with a Bool comparing the underlying payloads,
intercepted before any type-specific table lookup (when the left operand
is a Function or BuiltInFunction they are UndefinedOpErrors instead — see
the counterexample); in particular `none = 0` and `"" = false` evaluate to
Bool false without any diagnostic. -/
theorem c5_equality_nonfunction_left (v w : DPLValue)
    (h : isFunctionValue v = false) :
    dplBinaryOp v .EQ w = .ok (.vbool (payload v == payload w)) ∧
    dplBinaryOp v .NEQ w = .ok (.vbool (payload v != payload w)) ∧
    dplBinaryOp .vnone .EQ (.vnum 0) = .ok (.vbool false) ∧
    dplBinaryOp (.vstr "") .EQ (.vbool false) = .ok (.vbool false) := by
  cases v with
  | vfn name params body ctx => simp [isFunctionValue] at h
  | vbuiltin name ctx => simp [isFunctionValue] at h
  | vnone => exact ⟨rfl, rfl, rfl, rfl⟩
  | vnum q => exact ⟨rfl, rfl, rfl, rfl⟩
  | vbool b => exact ⟨rfl, rfl, rfl, rfl⟩
  | vstr str => exact ⟨rfl, rfl, rfl, rfl⟩

/-- Witness for C5 amended at v = none, w = the Number 0. -/
theorem c5_equality_nonfunction_left_witness :
    dplBinaryOp .vnone .EQ (.vnum 0) = .ok (.vbool (payload .vnone == payload (.vnum 0))) ∧
    dplBinaryOp .vnone .NEQ (.vnum 0) = .ok (.vbool (payload .vnone != payload (.vnum 0))) ∧
    dplBinaryOp .vnone .EQ (.vnum 0) = .ok (.vbool false) ∧
    dplBinaryOp (.vstr "") .EQ (.vbool false) = .ok (.vbool false) :=
  c5_equality_nonfunction_left .vnone (.vnum 0) rfl

/-- C9 counterexample: two BuiltInFunction values — both with null
payloads — do NOT compare EQ-true: with a function on the left,
BaseDPLFunction.binaryOp skips handleEquality and raises an
UndefinedOpError. -/
theorem c9_two_functions_eq_undefined_op :
    dplBinaryOp (.vbuiltin "print" none) .EQ (.vbuiltin "print" none) =
      .error ⟨"Undefined behavior for FN EQ FN", true⟩ :=
  rfl

/-- C9 amended: the null-payload coincidence holds only with None on the
LEFT: `none = w` yields Bool true for every w whose payload is null (None,
any Function, any BuiltInFunction — regardless of body or name), because
handleEquality compares the payloads with ===; with a Function or
BuiltInFunction on the left, EQ is an UndefinedOpError instead (see the
counterexample). -/
theorem c9_none_left_null_payload_eq_true (w : DPLValue)
    (h : payload w = .pnull) :
    dplBinaryOp .vnone .EQ w = .ok (.vbool true) := by
  have step : dplBinaryOp .vnone .EQ w = .ok (.vbool (payload .vnone == payload w)) := rfl
  rw [step, h]
  rfl

/-- Witness for C9 amended at w = the built-in print function. -/
theorem c9_none_left_null_payload_eq_true_witness :
    dplBinaryOp .vnone .EQ (.vbuiltin "print" none) = .ok (.vbool true) :=
  c9_none_left_null_payload_eq_true (.vbuiltin "print" none) rfl

/-- C2 (code bug): on the 6-character string literal `"\n\n"` — two
backslash-n escape sequences — the lexer's STRING token carries the value
LF, backslash, n: only the FIRST escape was decoded, because the decoding
regex in the matcher's map lacks the global flag (its model is
decodeFirstEscape), while a fully decoded value would be LF, LF.  The
second conjunct separates the two. -/
theorem c2_string_escapes_first_only :
    getTokens c2src =
      .ok [⟨.STRING, "\n\\n", ⟨0, 0, 0⟩, ⟨6, 0, 6⟩⟩,
           ⟨.EOF, "EOF", ⟨6, 0, 6⟩, ⟨7, 0, 7⟩⟩] ∧
    ("\n\\n" : String) ≠ "\n\n" := by
  exact ⟨rfl, by decide⟩

/-- C3 counterexample: the pipeline produces no value at all on
`set x : 10; set y : 20; x + y` (so in particular not the Number 30). -/
theorem c3_no_value_produced :
    execValue (executeModel 99 c3src) = none :=
  rfl

/-- C3 amended: running the pipeline on `set x : 10; set y : 20; x + y`
fails at lex time, for every interpreter fuel: the lexer's tokenMap has no
rule for `;`, so getTokens aborts with the IllegalCharacterError "';'"
spanning offsets 10-11 (the first semicolon) and execute returns that lex
error; the parser and interpreter never run. -/
theorem c3_lex_illegal_character (fuel : Nat) :
    executeModel fuel c3src = .lexErr ⟨"';'", ⟨10, 0, 10⟩, ⟨11, 0, 11⟩⟩ :=
  rfl

/-- C4: visitForNode loops on forGuard — `step > 0 ? i <= end : i >= end`.
With the counting body `set n : n + 1` and n starting at 0:
start 0 / end 5 / implicit step 1 leaves n = 6 (six iterations, both bounds
inclusive); start 5 / end 0 / step -1 leaves n = 6; start 0 / end 5 /
step -1 leaves n = 0 (zero iterations).  Each loop itself yields None. -/
theorem c4_for_loop_iteration_counts :
    (visit 99 forUp 0 stWithN).valOf = some .vnone ∧
    ((visit 99 forUp 0 stWithN).stOf.bind (fun s => tableGet s 0 "n")) = some (.vnum 6) ∧
    (visit 99 forDown 0 stWithN).valOf = some .vnone ∧
    ((visit 99 forDown 0 stWithN).stOf.bind (fun s => tableGet s 0 "n")) = some (.vnum 6) ∧
    (visit 99 forMismatch 0 stWithN).valOf = some .vnone ∧
    ((visit 99 forMismatch 0 stWithN).stOf.bind (fun s => tableGet s 0 "n")) = some (.vnum 0) := by
  refine ⟨?_, ?_, ?_, ?_, ?_, ?_⟩ <;> with_unfolding_all rfl

/-- C8: in visitBinaryOpNode the left operand is evaluated first and its
error is the node's result, with the right operand never evaluated (the
resulting store is exactly the left evaluation's); there is no
short-circuiting: `false and (1 / 0)` fails with "Division by 0" (the
right operand ran although the left was already false), and
`(set x : 1) + (set x : x + 1)` evaluates to 3 leaving x = 2, which
requires the left write to precede the right read. -/
theorem c8_binop_left_first_no_short_circuit (f : Nat) (op : Token)
    (l r : Node) (c : Nat) (s s₁ : St) (e : RTErr)
    (h : visit f l c s = .err e s₁) :
    visit (f + 1) (.binOp op l r) c s = .err e s₁ ∧
    visit 20 andDivZeroNode 0 stdInit = .err ⟨"Division by 0", false⟩ stdInit ∧
    (visit 20 seqWriteNode 0 stdInit).valOf = some (.vnum 3) ∧
    ((visit 20 seqWriteNode 0 stdInit).stOf.bind (fun st => tableGet st 0 "x")) =
      some (.vnum 2) := by
  refine ⟨?_, ?_, ?_, ?_⟩
  · simp only [visit] at h ⊢
    simp only [run]
    rw [h]
  · with_unfolding_all rfl
  · with_unfolding_all rfl
  · with_unfolding_all rfl

/-- Witness for C8 with left operand `1 / 0` failing at fuel 3. -/
theorem c8_binop_left_first_no_short_circuit_witness :
    visit (3 + 1) (.binOp tkAnd divZeroNode (mkNum "1")) 0 stdInit =
      .err ⟨"Division by 0", false⟩ stdInit ∧
    visit 20 andDivZeroNode 0 stdInit = .err ⟨"Division by 0", false⟩ stdInit ∧
    (visit 20 seqWriteNode 0 stdInit).valOf = some (.vnum 3) ∧
    ((visit 20 seqWriteNode 0 stdInit).stOf.bind (fun st => tableGet st 0 "x")) =
      some (.vnum 2) :=
  c8_binop_left_first_no_short_circuit 3 tkAnd divZeroNode (mkNum "1") 0
    stdInit stdInit ⟨"Division by 0", false⟩ (by with_unfolding_all rfl)

/-- C10: calling the print built-in (stamped with the program context over
the standard global table).  With exactly one argument the discarded
handleArgs error is null, "value" is populated, the `!`-asserted lookup
cannot miss, and print returns its argument unchanged up to the context
re-stamp populateArgs applies (same payload, printed once).  With zero or
two arguments handleArgs' error is discarded, nothing is populated, no
"value" binding exists anywhere on the fresh frame's chain, and the
`!` assertion crashes — the failure branch is unreachable exactly under
the one-argument precondition. -/
theorem c10_callPrint_single_arg_safe (v w : DPLValue) :
    (run 9 (.callS (.vbuiltin "print" (some 0)) [v]) stdInit).valOf =
      some (setValCtx v (some 1)) ∧
    payload (setValCtx v (some 1)) = payload v ∧
    ((run 9 (.callS (.vbuiltin "print" (some 0)) [v]) stdInit).stOf.map St.outLines) =
      some [dplToString (setValCtx v (some 1))] ∧
    (run 9 (.callS (.vbuiltin "print" (some 0)) []) stdInit).isCrash = true ∧
    (run 9 (.callS (.vbuiltin "print" (some 0)) [v, w]) stdInit).isCrash = true := by
  refine ⟨rfl, ?_, rfl, rfl, rfl⟩
  cases v <;> rfl

/-- C1 (code bug): DPLBuiltInFunction.call dispatches the name "prompt" to
callPrint, not callPrompt.  Evaluating `prompt("Enter: ")` with the line
"hello" pending on the input sink writes "Enter: " to the output sink and
returns the String "Enter: " — the argument itself — leaving the input
sink untouched.  The dead callPrompt (modelled by callPromptM), applied at
the very frame that call generated, would instead consume "hello" and
return it as a String. -/
theorem c1_prompt_dispatches_to_callPrint :
    (visit 30 promptCallNode 0 sPromptInit).valOf = some (.vstr "Enter: ") ∧
    ((visit 30 promptCallNode 0 sPromptInit).stOf.map St.inLines) = some ["hello"] ∧
    ((visit 30 promptCallNode 0 sPromptInit).stOf.map St.outLines) = some ["Enter: "] ∧
    (callPromptM [.vstr "Enter: "] 1 sPromptGen).valOf = some (.vstr "hello") ∧
    ((callPromptM [.vstr "Enter: "] 1 sPromptGen).stOf.map St.inLines) = some [] := by
  refine ⟨?_, ?_, ?_, ?_, ?_⟩ <;> with_unfolding_all rfl

end DPL
